import Mathlib

/-!
Verification development for the remoteZone decision-and-actuation pipeline.

This file gives a shallow embedding, in Lean 4, of the parts of the code
relevant to the recommendation engine, the hysteresis/application policy,
the automation bridge (WebView channel-change protocol), and the session
orchestrator (context), and proves the specified properties about them.

Conventions of the embedding:
- JavaScript nullable numeric fields become `Option Int` / `Option Nat`;
  JS truthiness of such a field (`null`/`undefined`/`0` are falsy) is
  `truthyI` / `truthyN` below.  JSON-sourced records contain `null`, not
  `undefined`, so both are represented by `none`.
- Millisecond timestamps are `Int` (`Date.now()` values).
- Imperative `for`/`forEach` loops that push onto arrays become structural
  recursions or folds that preserve iteration order.
- `Array.prototype.sort` is stable (ES2019), so `candidates.sort(byCombinedDesc)[0]`
  is the first element of the original list attaining the maximal combined
  score; the embedding computes that element directly (`selectTop`).
-/

/-! ## Recommendation engine data model (src/unnamed/part_008) -/

/-- One per-contest telemetry record, as consumed by `calculateRecommendedChannel`.
Field names follow the source (`game.event_id`, `game.is_live`, ...). -/
structure Game where
  event_id : Nat
  is_live : Bool
  quarter : Int
  down : Option Int
  distance : Option Int
  home_score : Int
  away_score : Int
  play_sequence : Option Int
  play_id : Option Int
  is_timeout : Bool
  score_just_changed : Bool
  game_excitement_score : Int
deriving DecidableEq

/-- One value of `config.gameMappings[event_id]`: the channel/priority a contest
is mapped to. -/
structure Mapping where
  channel : Nat
  priority : Int
deriving DecidableEq

/-- One record of `previousGameState.current[event_id]`, as written by the
status-fetch path (fields `down`, `distance`, `play_sequence`, `is_timeout`,
`score_just_changed`, `lastPlayUpdateTime`). -/
structure PrevGameState where
  down : Option Int
  distance : Option Int
  play_sequence : Option Int
  is_timeout : Bool
  score_just_changed : Bool
  lastPlayUpdateTime : Option Int
deriving DecidableEq

/-- JS truthiness of a nullable number (`null`, `undefined` and `0` are falsy). -/
def truthyI : Option Int → Bool
  | none => false
  | some v => v != 0

/-- JS truthiness of a nullable natural (`null`, `undefined` and `0` are falsy). -/
def truthyN : Option Nat → Bool
  | none => false
  | some v => v != 0

/-- JS `a || b || null` on nullable numbers. -/
def jsOrI (a b : Option Int) : Option Int :=
  if truthyI a then a else if truthyI b then b else none

/-- The constant `COMMERCIAL_STUCK_TIME_MS = 60 * 1000`. -/
def COMMERCIAL_STUCK_TIME_MS : Int := 60 * 1000

/-- The constant `CHANNEL_CHANGE_COOLDOWN_MS = 30 * 1000`. -/
def CHANNEL_CHANGE_COOLDOWN_MS : Int := 30 * 1000

/-- The constant `CHANNEL_STABILITY_MS = 30 * 1000`. -/
def CHANNEL_STABILITY_MS : Int := 30 * 1000

/-- The constant `EXCITEMENT_TIEBREAKER_THRESHOLD = 30`. -/
def EXCITEMENT_TIEBREAKER_THRESHOLD : Int := 30

/-- The source condition
`game.quarter > 0 || (game.down !== null && game.down !== undefined) ||
 (game.home_score > 0 || game.away_score > 0) || (game.play_sequence || game.play_id)`. -/
def gameHasStarted (g : Game) : Bool :=
  g.quarter > 0 || g.down.isSome || (g.home_score > 0 || g.away_score > 0) ||
    (truthyI g.play_sequence || truthyI g.play_id)

/-- Access `previousState.play_sequence`, where `previousState` is
`previousGameState.current[id] || {}` (missing record reads as `undefined`). -/
def prevPlaySequence : Option PrevGameState → Option Int
  | none => none
  | some p => p.play_sequence

/-- Access `previousState.lastPlayUpdateTime` in the same way. -/
def prevLastPlayUpdateTime : Option PrevGameState → Option Int
  | none => none
  | some p => p.lastPlayUpdateTime

/-- The source value `playSequence = game.play_sequence || game.play_id || null`. -/
def playSequenceOf (g : Game) : Option Int :=
  jsOrI g.play_sequence g.play_id

/-- The source condition `playSequence && previousState.play_sequence &&
playSequence !== previousState.play_sequence`. -/
def playSequenceChangedB (prev : Option PrevGameState) (g : Game) : Bool :=
  truthyI (playSequenceOf g) && truthyI (prevPlaySequence prev) &&
    playSequenceOf g != prevPlaySequence prev

/-- The source condition `previousState.down !== undefined &&
(previousState.down !== game.down || previousState.distance !== game.distance)`.
A stored record always carries a `down` field, so the `!== undefined` guard is
presence of the record. -/
def downChangedB (prev : Option PrevGameState) (g : Game) : Bool :=
  match prev with
  | none => false
  | some p => p.down != g.down || p.distance != g.distance

/-- The source condition `downChanged && game.down !== null && game.distance !== null`. -/
def downChangedValidB (prev : Option PrevGameState) (g : Game) : Bool :=
  downChangedB prev g && g.down.isSome && g.distance.isSome

/-- The source value `hasNewPlay = playSequenceChanged || downChangedValid`. -/
def hasNewPlayB (prev : Option PrevGameState) (g : Game) : Bool :=
  playSequenceChangedB prev g || downChangedValidB prev g

/-- The source value `isPlayStuck`: false when `lastPlayUpdateTime` is absent or
falsy, otherwise `now - lastPlayUpdateTime > COMMERCIAL_STUCK_TIME_MS`. -/
def isPlayStuck (prev : Option PrevGameState) (now : Int) : Bool :=
  match prevLastPlayUpdateTime prev with
  | none => false
  | some t => t != 0 && now - t > COMMERCIAL_STUCK_TIME_MS

/-- The source value `isFourthDown = game.down === 4`. -/
def isFourthDown (g : Game) : Bool :=
  g.down == some 4

/-- The source value `isCommercial = (!hasNewPlay && (game.is_timeout ||
game.score_just_changed)) || (isFourthDown && isPlayStuck && !hasNewPlay)`. -/
def isCommercial (prev : Option PrevGameState) (g : Game) (now : Int) : Bool :=
  (!hasNewPlayB prev g && (g.is_timeout || g.score_just_changed)) ||
    (isFourthDown g && isPlayStuck prev now && !hasNewPlayB prev g)

/-- One entry pushed onto `candidates` (the `game` field, used only for log
output, is omitted). -/
structure Candidate where
  event_id : Nat
  channel : Nat
  priority : Int
  excitement_score : Int
deriving DecidableEq

/-- The candidate-building loop of `calculateRecommendedChannel`: for each game
in order, skip unmapped games, non-live games, games that have not started, and
games judged `isCommercial`; push the rest as candidates. -/
def buildCandidates (games : List Game) (gameMappings : List (Nat × Mapping))
    (prevState : Nat → Option PrevGameState) (now : Int) : List Candidate :=
  match games with
  | [] => []
  | g :: gs =>
    match gameMappings.lookup g.event_id with
    | none => buildCandidates gs gameMappings prevState now
    | some m =>
      if !g.is_live then buildCandidates gs gameMappings prevState now
      else if !gameHasStarted g then buildCandidates gs gameMappings prevState now
      else if isCommercial (prevState g.event_id) g now then
        buildCandidates gs gameMappings prevState now
      else ⟨g.event_id, m.channel, m.priority, g.game_excitement_score⟩ ::
        buildCandidates gs gameMappings prevState now

/-- One step of the fallback loop: keep the running best `(priority, channel)`
pair, replacing it only on a strictly lower priority value (`mapping.priority <
lowestPriority`), over mapped, live, started games. -/
def fallbackStep (gameMappings : List (Nat × Mapping)) (best : Option (Int × Nat))
    (g : Game) : Option (Int × Nat) :=
  match gameMappings.lookup g.event_id with
  | none => best
  | some m =>
    if !g.is_live then best
    else if !gameHasStarted g then best
    else
      match best with
      | none => some (m.priority, m.channel)
      | some b => if m.priority < b.1 then some (m.priority, m.channel) else best

/-- The fallback loop of `calculateRecommendedChannel`, threading the running
best pair through the games in order (initially `lowestPriority = Infinity`,
i.e. `none`). -/
def fallbackLoop (gameMappings : List (Nat × Mapping)) (games : List Game)
    (best : Option (Int × Nat)) : Option (Int × Nat) :=
  match games with
  | [] => best
  | g :: gs => fallbackLoop gameMappings gs (fallbackStep gameMappings best g)

/-- The fallback result: `fallbackGame.channel` when a fallback game was found,
`null` otherwise. -/
def fallbackChannel (games : List Game) (gameMappings : List (Nat × Mapping)) :
    Option Nat :=
  (fallbackLoop gameMappings games none).map (fun b => b.2)

/-- `Math.max` over the candidates' excitement scores (only evaluated on a
non-empty candidate list in the source; the `[]` case is arbitrary). -/
def maxExcitement : List Candidate → Int
  | [] => 0
  | c :: cs => cs.foldl (fun a x => max a x.excitement_score) c.excitement_score

/-- `Math.min` over the candidates' excitement scores. -/
def minExcitement : List Candidate → Int
  | [] => 0
  | c :: cs => cs.foldl (fun a x => min a x.excitement_score) c.excitement_score

/-- The priority bonus `(10 - candidate.priority) * 10`, applied only when the
excitement range is below the tiebreaker threshold. -/
def priorityBonus (usePriorityTiebreaker : Bool) (priority : Int) : Int :=
  if usePriorityTiebreaker then (10 - priority) * 10 else 0

/-- `candidate.combined_score = candidate.excitement_score + priorityBonus`. -/
def combinedScore (cs : List Candidate) (c : Candidate) : Int :=
  c.excitement_score +
    priorityBonus
      (maxExcitement cs - minExcitement cs < EXCITEMENT_TIEBREAKER_THRESHOLD)
      c.priority

/-- The first element of the list attaining the maximal score: exactly
`candidates.sort((a, b) => b.combined_score - a.combined_score)[0]` for the
stable ES2019 sort. A later element replaces the running winner only on a
strictly greater score. -/
def selectTop : List (Candidate × Int) → Option (Candidate × Int)
  | [] => none
  | p :: ps =>
    match selectTop ps with
    | none => some p
    | some q => if q.2 > p.2 then some q else some p

/-- The scoring-and-selection tail of `calculateRecommendedChannel`: annotate
every candidate with its combined score, pick the stable-sort winner, return
its channel. -/
def scoreAndSelect (cs : List Candidate) : Option Nat :=
  (selectTop (cs.map (fun c => (c, combinedScore cs c)))).map (fun p => p.1.channel)

/-- The whole of `calculateRecommendedChannel(games, config)`: `null` when the
mapping table is empty, otherwise build candidates; if none survive, fall back
to the lowest-priority live started mapped game; otherwise score and select. -/
def calculateRecommendedChannel (games : List Game)
    (gameMappings : List (Nat × Mapping)) (prevState : Nat → Option PrevGameState)
    (now : Int) : Option Nat :=
  if gameMappings = [] then none
  else
    match buildCandidates games gameMappings prevState now with
    | [] => fallbackChannel games gameMappings
    | c :: cs => scoreAndSelect (c :: cs)

/-- The games eligible for the fallback (and forming the pre-filter candidate
pool): mapped, live, and started; yields the mapping when eligible. -/
def eligMapping (gameMappings : List (Nat × Mapping)) (g : Game) : Option Mapping :=
  match gameMappings.lookup g.event_id with
  | none => none
  | some m => if g.is_live && gameHasStarted g then some m else none

/-! ## Hysteresis / application policy (the auto channel-change effect) -/

/-- The mutable refs and state read and written by the auto-channel-change
effect: `recommendedChannelRef`, `recommendedChannelTimeRef`,
`lastChannelChangeTime`, `monitoringJustStartedRef`, and the `currentChannel`
React state. -/
structure MonState where
  recommendedChannel : Option Nat
  recommendedChannelTime : Option Int
  lastChannelChangeTime : Option Int
  monitoringJustStarted : Bool
  currentChannel : Option Nat
deriving DecidableEq

/-- One run of the auto-channel-change effect body on an active monitoring
tick (monitoring on, authenticated, games and mappings present), given the
computed recommendation `rec`, the tick time `now`, and whether an attempted
`changeChannel` call reports success (`changeSucceeds` stands for the awaited
result inside `attemptChange`).  Returns the updated refs/state and the
channel passed to `changeChannel`, if the tick actuates one.

Mirrors, in order: the `!recommendedChannel` early return (clearing the
tracking refs), the monitoring-just-started one-shot bypass, the
stability-reset on a changed recommendation, the stability-window check
(`now - recommendedChannelTimeRef.current`, JS `null` coercing to `0`), the
`recommendedChannel !== currentChannel` check, and the cooldown guard
`lastChannelChangeTime.current && now - lastChannelChangeTime.current <
CHANNEL_CHANGE_COOLDOWN_MS`. -/
def monitorTick (s : MonState) (rec : Option Nat) (now : Int)
    (changeSucceeds : Bool) : MonState × Option Nat :=
  if !truthyN rec then
    ({ s with recommendedChannel := none, recommendedChannelTime := none,
              monitoringJustStarted := false }, none)
  else if s.monitoringJustStarted then
    if changeSucceeds then
      ({ s with monitoringJustStarted := false,
                currentChannel := some (rec.getD 0),
                lastChannelChangeTime := some now,
                recommendedChannel := some (rec.getD 0),
                recommendedChannelTime := some now }, some (rec.getD 0))
    else ({ s with monitoringJustStarted := false }, some (rec.getD 0))
  else if rec != s.recommendedChannel then
    ({ s with recommendedChannel := rec, recommendedChannelTime := some now },
     none)
  else if now - s.recommendedChannelTime.getD 0 < CHANNEL_STABILITY_MS then
    (s, none)
  else if rec != s.currentChannel then
    if truthyI s.lastChannelChangeTime &&
        now - s.lastChannelChangeTime.getD 0 < CHANNEL_CHANGE_COOLDOWN_MS then
      (s, none)
    else if changeSucceeds then
      ({ s with currentChannel := some (rec.getD 0),
                lastChannelChangeTime := some now,
                recommendedChannel := none, recommendedChannelTime := none },
       some (rec.getD 0))
    else (s, some (rec.getD 0))
  else (s, none)

/-! ## Automation bridge (src/mobile-app/src/components/RogersRemoteWebView.js) -/

/-- A digit button (`"NUMBER_" + digit`) or the terminator button (`ENTER`)
on the control surface. -/
inductive RemoteButton where
  | number (d : Nat)
  | enter
deriving DecidableEq

/-- The decimal digits of `String(channelNumber).split("")`, most significant
first.  Fuel-bounded division loop; `n` itself bounds the digit count. -/
def digitsAux : Nat → Nat → List Nat
  | 0, _ => []
  | fuel + 1, n => if n = 0 then [] else digitsAux fuel (n / 10) ++ [n % 10]

/-- The digit list of a channel number (`String(0)` is `"0"`). -/
def channelDigits (n : Nat) : List Nat :=
  if n = 0 then [0] else digitsAux n n

/-- The `digits.forEach((digit, index) => setTimeout(..., index * 400))` loop:
each push appends one timer, whose relative delay is the current index (the
number of timers already pushed) times 400ms. -/
def pushDigitTimeouts (digits : List Nat) : List (Nat × RemoteButton) :=
  digits.foldl (fun acc d => acc ++ [(acc.length * 400, RemoteButton.number d)]) []

/-- All timers scheduled by the injected channel-change script: one per digit,
then the ENTER press at `digits.length * 400 + 300`. -/
def channelChangeSchedule (n : Nat) : List (Nat × RemoteButton) :=
  pushDigitTimeouts (channelDigits n) ++
    [((channelDigits n).length * 400 + 300, RemoteButton.enter)]

/-- The watchdog delay `totalTime = channelStr.length * 400 + 300 + 500`. -/
def totalTimeMs (numDigits : Nat) : Nat :=
  numDigits * 400 + 300 + 500

/-- The inbound WebView messages relevant to a channel-change operation
(the remaining `handleMessage` branches neither read nor write
`changingChannelRef` and are collapsed into `other`). -/
inductive WebViewMsg where
  | channelChanged (channel : Nat)
  | channelChangeError (channel : Nat)
  | other
deriving DecidableEq

/-- Whether a message is terminal for a channel-change operation. -/
def isTerminalMsg : WebViewMsg → Bool
  | .channelChanged _ => true
  | .channelChangeError _ => true
  | .other => false

/-- The bridge-side view of one dispatched channel-change operation:
the `changingChannelRef` flag plus the abstract outcome of the operation
(`some true` = resolved success via `channelChanged`, `some false` = resolved
failure; `none` = still pending).  The outcome field records which terminal
path ran first. -/
structure OpState where
  changingChannel : Bool
  resolvedOutcome : Option Bool
deriving DecidableEq

/-- The state at dispatch: the flag was just set (`changingChannelRef.current =
true`, line 96) and no terminal message has been handled. -/
def opDispatch : OpState :=
  ⟨true, none⟩

/-- The `handleMessage` effect of one inbound message on the operation:
`channelChanged` and `channelChangeError` clear `changingChannelRef` (and
resolve the operation, once); other messages leave it alone. -/
def handleOpMsg (s : OpState) (m : WebViewMsg) : OpState :=
  match m with
  | .channelChanged _ =>
    ⟨false, if s.resolvedOutcome.isNone then some true else s.resolvedOutcome⟩
  | .channelChangeError _ =>
    ⟨false, if s.resolvedOutcome.isNone then some false else s.resolvedOutcome⟩
  | .other => s

/-- Handle a list of inbound messages in arrival order. -/
def runOpMsgs (s : OpState) (ms : List WebViewMsg) : OpState :=
  ms.foldl handleOpMsg s

/-- The watchdog timer body (lines 226-232): if `changingChannelRef` is still
set when the timer fires, force-clear it; the operation, never having reached
a terminal message, resolves as failure. -/
def watchdogFire (s : OpState) : OpState :=
  if s.changingChannel then
    ⟨false, if s.resolvedOutcome.isNone then some false else s.resolvedOutcome⟩
  else s

/-! ## Bridge call entry, readiness handshake and continuation -/

/-- Timers and injections a bridge call can schedule. -/
inductive BridgeAction where
  | injectReadinessProbe
  | readinessTimeoutTimer (rid : Nat)
  | retryTimer (delayMs : Nat)
  | clickTimer (delayMs : Nat) (button : RemoteButton)
  | watchdogTimer (delayMs : Nat)
deriving DecidableEq

/-- The bridge component state touched by `changeChannel` and `handleMessage`:
whether `webViewRef.current` is non-null, the `changingChannelRef` flag, the
single `readinessResolverRef` slot (resolvers are numbered in creation order),
the next resolver number, the channel captured by the pending call's
continuation, and the log of resolver resolutions `(rid, ready, authenticated)`
in the order they happened. -/
structure BridgeState where
  webViewAvailable : Bool
  changingChannel : Bool
  readinessResolver : Option Nat
  nextResolverId : Nat
  pendingChannel : Option Nat
  resolvedLog : List (Nat × Bool × Bool)
deriving DecidableEq

/-- The initial bridge state with a mounted WebView. -/
def bridgeInit : BridgeState :=
  ⟨true, false, none, 0, none, []⟩

/-- The immediate result of a `changeChannel(n)` call on the bridge. -/
inductive CallResult where
  | noWebView
  | alreadyChanging
  | probePending (rid : Nat)
deriving DecidableEq

/-- The synchronous prefix of the component's `changeChannel(n)` (lines 12-75):
fail fast when `webViewRef.current` is null; fail fast when
`changingChannelRef.current` is already set; otherwise `checkWebViewReady`
stores one new resolver in `readinessResolverRef`, injects the readiness probe
and arms its 2-second fallback timer.  Digit and terminator activations are
scheduled only later, by the continuation, after the probe resolves. -/
def changeChannelEntry (s : BridgeState) (n : Nat) :
    CallResult × BridgeState × List BridgeAction :=
  if !s.webViewAvailable then (.noWebView, s, [])
  else if s.changingChannel then (.alreadyChanging, s, [])
  else
    (.probePending s.nextResolverId,
     { s with readinessResolver := some s.nextResolverId,
              nextResolverId := s.nextResolverId + 1,
              pendingChannel := some n },
     [.injectReadinessProbe, .readinessTimeoutTimer s.nextResolverId])

/-- The `.then` continuation of `checkWebViewReady` (lines 78-238), run when
the pending probe resolves with `(ready, authenticated)`: not ready schedules a
1-second retry of `changeChannel`; ready but not authenticated clears the
in-flight flag and gives up; otherwise the flag is set, the digit script is
injected (scheduling `channelChangeSchedule n`) and the watchdog is armed. -/
def changeChannelContinuation (s : BridgeState) (ready authenticated : Bool)
    (n : Nat) : BridgeState × List BridgeAction :=
  if !ready then (s, [.retryTimer 1000])
  else if !authenticated then ({ s with changingChannel := false }, [])
  else
    ({ s with changingChannel := true },
     (channelChangeSchedule n).map (fun p => .clickTimer p.1 p.2) ++
       [.watchdogTimer (totalTimeMs (channelDigits n).length)])

/-- Externally visible events driving the readiness handshake: a
`changeChannel(n)` call, an inbound `channelChangeReadiness` message, and the
firing of a probe's 2-second fallback timer (which resolves optimistically
with `ready = true, authenticated = false` only if its own resolver is still
the stored one). -/
inductive BridgeEv where
  | call (n : Nat)
  | readinessMessage (ready authenticated : Bool)
  | readinessTimeout (rid : Nat)
deriving DecidableEq

/-- One event step of the bridge.  Resolving a probe (by message, lines
304-310, or by its own timeout, lines 66-73) appends to the resolution log,
clears the resolver slot, and runs the pending call's continuation with the
resolved values. -/
def bridgeStep (s : BridgeState) (e : BridgeEv) : BridgeState :=
  match e with
  | .call n => (changeChannelEntry s n).2.1
  | .readinessMessage ready authenticated =>
    match s.readinessResolver with
    | none => s
    | some rid =>
      let s1 := { s with readinessResolver := none,
                         resolvedLog := s.resolvedLog ++ [(rid, ready, authenticated)] }
      (changeChannelContinuation s1 ready authenticated (s1.pendingChannel.getD 0)).1
  | .readinessTimeout rid =>
    if s.readinessResolver = some rid then
      let s1 := { s with readinessResolver := none,
                         resolvedLog := s.resolvedLog ++ [(rid, true, false)] }
      (changeChannelContinuation s1 true false (s1.pendingChannel.getD 0)).1
    else s

/-- Run a list of bridge events in order. -/
def bridgeRun (s : BridgeState) (es : List BridgeEv) : BridgeState :=
  es.foldl bridgeStep s

/-! ## Session orchestrator (src/mobile-app/src/context/RogersRemoteContext.js) -/

/-- The context state relevant to visibility and authentication: the
`authenticated`, `showWebView` and `webViewLoaded` React states, and the
selected provider (by index into `REMOTE_PROVIDERS`). -/
structure RemoteContextState where
  authenticated : Bool
  showWebView : Bool
  webViewLoaded : Bool
  remoteProvider : Nat
deriving DecidableEq

/-- Whether the always-mounted hidden WebView container is rendered
(line 159: `authenticated && <View style={styles.webViewHidden}>...`). -/
def hiddenWebViewMounted (s : RemoteContextState) : Bool :=
  s.authenticated

/-- `closeWebView` (lines 91-101): when authenticated, an alert is shown and
its OK action runs `setShowWebView(false)`; otherwise `setShowWebView(false)`
runs directly.  Either way only the visibility flag is written. -/
def closeWebView (s : RemoteContextState) : RemoteContextState :=
  if s.authenticated then { s with showWebView := false }
  else { s with showWebView := false }

/-- Deferred work and user-visible effects the context's `changeChannel` can
produce. -/
inductive ContextAction where
  | alertAuthFirst
  | deferredRetry (delayMs : Nat) (channel : Nat)
  | callBridge (channel : Nat)
  | alertNotReady
  | alertChangeFailed
deriving DecidableEq

/-- The context's `changeChannel(n)` (lines 103-140): not authenticated fails
with an alert; a null `webViewRef` returns `false` after scheduling a single
500ms deferred retry; otherwise the bridge call is made inside `try`, returning
`true`, or `false` with an alert if it throws. -/
def contextChangeChannel (authenticated webViewRefAvailable bridgeCallThrows : Bool)
    (n : Nat) : Bool × List ContextAction :=
  if !authenticated then (false, [.alertAuthFirst])
  else if !webViewRefAvailable then (false, [.deferredRetry 500 n])
  else if bridgeCallThrows then (false, [.callBridge n, .alertChangeFailed])
  else (true, [.callBridge n])

/-- The body of the 500ms deferred retry (lines 113-126): if the ref has become
available it performs the bridge channel change after all; otherwise it shows
the not-ready recovery alert. -/
def deferredRetryFire (webViewRefAvailableAtFire : Bool) (n : Nat) :
    List ContextAction :=
  if webViewRefAvailableAtFire then [.callBridge n] else [.alertNotReady]

/-! ## Concrete fixtures used by example conjuncts and witnesses -/

/-- Candidate A of the tie-break example: excitement 50, priority 1, channel 10. -/
def candA : Candidate :=
  ⟨1, 10, 1, 50⟩

/-- Candidate B of the tie-break example: excitement 55, priority 2, channel 20. -/
def candB : Candidate :=
  ⟨2, 20, 2, 55⟩

/-- A live, started, mapped game for contest 1 (excitement 50). -/
def gameA : Game :=
  ⟨1, true, 1, some 1, some 10, 0, 0, none, none, false, false, 50⟩

/-- A live, started, mapped game for contest 2 (excitement 55). -/
def gameB : Game :=
  ⟨2, true, 1, some 2, some 7, 0, 0, none, none, false, false, 55⟩

/-- Mappings for the tie-break example: contest 1 to channel 10 priority 1,
contest 2 to channel 20 priority 2. -/
def mappingsAB : List (Nat × Mapping) :=
  [(1, ⟨10, 1⟩), (2, ⟨20, 2⟩)]

/-- A live, started, mapped game on a timeout break (dropped by the activity
filter when no new play is detected). -/
def gameTimeoutBreak : Game :=
  ⟨1, true, 1, some 1, some 10, 0, 0, none, none, true, false, 50⟩

/-- Mapping for `gameTimeoutBreak`: channel 7, priority 2. -/
def mappingsFallback : List (Nat × Mapping) :=
  [(1, ⟨7, 2⟩)]

/-- Empty previous-tick store (`previousGameState.current = {}`). -/
def noPrevState : Nat → Option PrevGameState :=
  fun _ => none

/-- A monitoring state after the first tick: channel 5 has been recommended
since time 0, no change applied yet, currently tuned to channel 3. -/
def monStable5 : MonState :=
  ⟨some 5, some 0, none, false, some 3⟩

/-- A bridge state with an operation already in flight. -/
def bridgeBusy : BridgeState :=
  ⟨true, true, none, 0, none, []⟩

/-- A bridge state with a registered readiness resolver (probe 0 pending). -/
def bridgeProbePending : BridgeState :=
  ⟨true, false, some 0, 1, some 516, []⟩

/-- An authenticated context state with the modal visible. -/
def contextAuthOpen : RemoteContextState :=
  ⟨true, true, true, 0⟩

/-! ## Helper lemmas -/

/-- A truthy nullable natural is `some` of its default-read value. -/
theorem truthyN_eq_some (o : Option Nat) (h : truthyN o = true) :
    o = some (o.getD 0) := by
  cases o with
  | none => simp [truthyN] at h
  | some v => rfl

/-- Handling only non-terminal messages leaves the operation state unchanged. -/
theorem runOpMsgs_nonterminal (ms : List WebViewMsg)
    (h : ∀ m ∈ ms, isTerminalMsg m = false) (s : OpState) :
    runOpMsgs s ms = s := by
  induction ms with
  | nil => rfl
  | cons m rest ih =>
    have hm : isTerminalMsg m = false := h m (List.mem_cons_self m rest)
    have hstep : handleOpMsg s m = s := by
      cases m with
      | channelChanged c => simp [isTerminalMsg] at hm
      | channelChangeError c => simp [isTerminalMsg] at hm
      | other => rfl
    have : runOpMsgs s (m :: rest) = runOpMsgs (handleOpMsg s m) rest := rfl
    rw [this, hstep]
    exact ih (fun x hx => h x (List.mem_cons_of_mem m hx))

/-- Delays pushed by the digit loop: starting from accumulator `acc`, the
final delays are those of `acc` followed by `(acc.length + i) * 400` for
`i = 0 .. digits.length - 1`. -/
theorem pushDigitTimeouts_fst (ds : List Nat) :
    ∀ acc : List (Nat × RemoteButton),
      ((ds.foldl (fun a d => a ++ [(a.length * 400, RemoteButton.number d)]) acc).map
          Prod.fst)
        = acc.map Prod.fst ++
            (List.range ds.length).map (fun i => (acc.length + i) * 400) := by
  induction ds with
  | nil => intro acc; simp
  | cons d rest ih =>
    intro acc
    have hstep := ih (acc ++ [(acc.length * 400, RemoteButton.number d)])
    simp only [List.foldl_cons]
    rw [hstep]
    simp only [List.length_append, List.length_cons, List.length_nil,
      List.map_append, List.map_cons, List.map_nil, List.range_succ_eq_map,
      List.map_map, List.append_assoc, List.cons_append, List.nil_append]
    have htail :
        List.map ((fun i => (acc.length + i) * 400) ∘ Nat.succ) (List.range rest.length)
          = List.map (fun i => (acc.length + (0 + 1) + i) * 400) (List.range rest.length) := by
      apply List.map_congr_left
      intro i _
      simp only [Function.comp_apply]
      omega
    rw [htail]
    simp

/-- Buttons pushed by the digit loop, in order. -/
theorem pushDigitTimeouts_snd (ds : List Nat) :
    ∀ acc : List (Nat × RemoteButton),
      ((ds.foldl (fun a d => a ++ [(a.length * 400, RemoteButton.number d)]) acc).map
          Prod.snd)
        = acc.map Prod.snd ++ ds.map RemoteButton.number := by
  induction ds with
  | nil => intro acc; simp
  | cons d rest ih =>
    intro acc
    have hstep := ih (acc ++ [(acc.length * 400, RemoteButton.number d)])
    simp only [List.foldl_cons]
    rw [hstep]
    simp

/-! ## Claim theorems: bridge and orchestrator -/

/-- C4: a bridge `changeChannel(n)` call made while the in-flight flag
(`changingChannelRef.current`) is set returns failure immediately, leaves the
bridge state unchanged (no resolver is registered, so its continuation can
never run), and schedules no digit or terminator activation. -/
theorem claim4_inflight_mutual_exclusion (s : BridgeState) (n : Nat)
    (hw : s.webViewAvailable = true) (hc : s.changingChannel = true) :
    changeChannelEntry s n = (.alreadyChanging, s, []) := by
  simp [changeChannelEntry, hw, hc]

/-- Witness for C4 at the concrete busy bridge state. -/
theorem claim4_inflight_mutual_exclusion_witness :
    bridgeBusy.webViewAvailable = true ∧ bridgeBusy.changingChannel = true ∧
    changeChannelEntry bridgeBusy 516 = (.alreadyChanging, bridgeBusy, []) :=
  ⟨rfl, rfl, claim4_inflight_mutual_exclusion bridgeBusy 516 rfl rfl⟩

/-- C5: for a k-digit channel, if every terminal message
(`channelChanged`/`channelChangeError`) arrives no earlier than
`k*400 + 300 + 500` ms after dispatch, then when the watchdog fires the
bridge clears the in-flight flag and the operation resolves as failure. -/
theorem claim5_watchdog_timeout (n : Nat) (ms : List (Nat × WebViewMsg))
    (h : ∀ p ∈ ms, isTerminalMsg p.2 = true →
      totalTimeMs (channelDigits n).length ≤ p.1) :
    watchdogFire (runOpMsgs opDispatch
        ((ms.filter (fun p => p.1 < totalTimeMs (channelDigits n).length)).map
          Prod.snd))
      = ⟨false, some false⟩ := by
  have hall : ∀ m ∈ (ms.filter
      (fun p => p.1 < totalTimeMs (channelDigits n).length)).map Prod.snd,
      isTerminalMsg m = false := by
    intro m hm
    rcases List.mem_map.mp hm with ⟨p, hp, rfl⟩
    have hfilt := List.mem_filter.mp hp
    rcases hterm : isTerminalMsg p.2 with _ | _
    · rfl
    · have hle := h p hfilt.1 hterm
      have hlt : p.1 < totalTimeMs (channelDigits n).length := by
        simpa using hfilt.2
      omega
  rw [runOpMsgs_nonterminal _ hall]
  rfl

/-- Witness for C5: channel 516 (total time 2000ms), with the only terminal
message arriving exactly at the watchdog deadline. -/
theorem claim5_watchdog_timeout_witness :
    (∀ p ∈ [((2000 : Nat), WebViewMsg.channelChanged 516)],
      isTerminalMsg p.2 = true → totalTimeMs (channelDigits 516).length ≤ p.1) ∧
    watchdogFire (runOpMsgs opDispatch
        (([((2000 : Nat), WebViewMsg.channelChanged 516)].filter
          (fun p => p.1 < totalTimeMs (channelDigits 516).length)).map Prod.snd))
      = ⟨false, some false⟩ :=
  ⟨by decide, claim5_watchdog_timeout 516 _ (by decide)⟩

/-- C6: the injected script schedules the activation of digit `i` (0-based) at
relative delay `i * 400` ms and the terminator at `k * 400 + 300` ms; for
channel 516 the fired timers are `NUMBER_5` at 0ms, `NUMBER_1` at 400ms,
`NUMBER_6` at 800ms and `ENTER` at 1500ms. -/
theorem claim6_digit_timing (n : Nat) :
    (channelChangeSchedule n).map Prod.fst
        = (List.range (channelDigits n).length).map (fun i => i * 400) ++
            [(channelDigits n).length * 400 + 300] ∧
    (channelChangeSchedule n).map Prod.snd
        = (channelDigits n).map RemoteButton.number ++ [RemoteButton.enter] ∧
    channelChangeSchedule 516
        = [(0, .number 5), (400, .number 1), (800, .number 6), (1500, .enter)] := by
  refine ⟨?_, ?_, by decide⟩
  · unfold channelChangeSchedule pushDigitTimeouts
    rw [List.map_append, pushDigitTimeouts_fst (channelDigits n) []]
    simp
  · unfold channelChangeSchedule pushDigitTimeouts
    rw [List.map_append, pushDigitTimeouts_snd (channelDigits n) []]
    simp

/-- C8: hiding the remote container while authenticated changes only the
visibility flag: the authenticated flag, load state and provider are
untouched, and the hidden WebView container stays mounted, so the
authenticated session is not destroyed. -/
theorem claim8_hide_preserves_session (s : RemoteContextState)
    (h : s.authenticated = true) :
    (closeWebView s).authenticated = s.authenticated ∧
    (closeWebView s).webViewLoaded = s.webViewLoaded ∧
    (closeWebView s).remoteProvider = s.remoteProvider ∧
    hiddenWebViewMounted (closeWebView s) = hiddenWebViewMounted s ∧
    hiddenWebViewMounted (closeWebView s) = true ∧
    (closeWebView s).showWebView = false := by
  simp [closeWebView, hiddenWebViewMounted, h]

/-- Witness for C8 at the concrete authenticated open state. -/
theorem claim8_hide_preserves_session_witness :
    contextAuthOpen.authenticated = true ∧
    ((closeWebView contextAuthOpen).authenticated = contextAuthOpen.authenticated ∧
    (closeWebView contextAuthOpen).webViewLoaded = contextAuthOpen.webViewLoaded ∧
    (closeWebView contextAuthOpen).remoteProvider = contextAuthOpen.remoteProvider ∧
    hiddenWebViewMounted (closeWebView contextAuthOpen)
        = hiddenWebViewMounted contextAuthOpen ∧
    hiddenWebViewMounted (closeWebView contextAuthOpen) = true ∧
    (closeWebView contextAuthOpen).showWebView = false) :=
  ⟨rfl, claim8_hide_preserves_session contextAuthOpen rfl⟩

/-- C10: an orchestrator `changeChannel(n)` call made while authenticated but
with a null bridge reference returns `false` immediately while scheduling
exactly one 500ms deferred retry; when the retry fires with the reference
available it still performs the bridge channel change, so the `false` return
does not imply that no change is actuated by the call. -/
theorem claim10_deferred_retry (bridgeCallThrows : Bool) (n : Nat) :
    contextChangeChannel true false bridgeCallThrows n
        = (false, [.deferredRetry 500 n]) ∧
    deferredRetryFire true n = [.callBridge n] :=
  ⟨rfl, rfl⟩

/-- C9: a single tick of the auto-channel-change effect either leaves the
recommended-channel/time pair untouched, sets both to a consistent
`(channel, now)` pair, or clears both; neither ref is ever written alone.
The only other writers (the monitoring-stop reset and `handleStart`) touch
neither ref or are covered by the first disjunct. -/
theorem claim9_recommendation_pair_atomic (s : MonState) (rec : Option Nat)
    (now : Int) (ok : Bool) :
    ((monitorTick s rec now ok).1.recommendedChannel = s.recommendedChannel ∧
      (monitorTick s rec now ok).1.recommendedChannelTime
        = s.recommendedChannelTime) ∨
    (∃ c, (monitorTick s rec now ok).1.recommendedChannel = some c ∧
      (monitorTick s rec now ok).1.recommendedChannelTime = some now) ∨
    ((monitorTick s rec now ok).1.recommendedChannel = none ∧
      (monitorTick s rec now ok).1.recommendedChannelTime = none) := by
  unfold monitorTick
  split_ifs with h1 h2 h3 h4 h5 h6 h7 h8
  · right; right; exact ⟨rfl, rfl⟩
  · right; left; exact ⟨rec.getD 0, rfl, rfl⟩
  · left; exact ⟨rfl, rfl⟩
  · rcases htr : rec with _ | c
    · simp [htr, truthyN] at h1
    · right; left; exact ⟨c, rfl, rfl⟩
  · left; exact ⟨rfl, rfl⟩
  · left; exact ⟨rfl, rfl⟩
  · right; right; exact ⟨rfl, rfl⟩
  · left; exact ⟨rfl, rfl⟩
  · left; exact ⟨rfl, rfl⟩

/-- C2: on a tick after the first (`monitoringJustStartedRef` cleared), a
channel change is actuated only when the recommendation equals the tracked
recommended channel, the tracked pair has been stable for at least
`CHANNEL_STABILITY_MS`, any recorded last change is at least
`CHANNEL_CHANGE_COOLDOWN_MS` old, and the recommendation differs from the
currently tuned channel; on the first tick a truthy recommendation is actuated
unconditionally; and a changed recommendation resets the stability clock to
`now` without actuating. -/
theorem claim2_hysteresis_guards (s : MonState) (rec : Option Nat) (now : Int)
    (ok : Bool) :
    (s.monitoringJustStarted = false →
      ∀ r : Nat, (monitorTick s rec now ok).2 = some r →
        rec = some r ∧ s.recommendedChannel = some r ∧
        CHANNEL_STABILITY_MS ≤ now - s.recommendedChannelTime.getD 0 ∧
        (truthyI s.lastChannelChangeTime = true →
          CHANNEL_CHANGE_COOLDOWN_MS ≤ now - s.lastChannelChangeTime.getD 0) ∧
        s.currentChannel ≠ some r) ∧
    (s.monitoringJustStarted = true → truthyN rec = true →
      (monitorTick s rec now ok).2 = rec) ∧
    (s.monitoringJustStarted = false → truthyN rec = true →
      rec ≠ s.recommendedChannel →
      (monitorTick s rec now ok).1.recommendedChannel = rec ∧
      (monitorTick s rec now ok).1.recommendedChannelTime = some now ∧
      (monitorTick s rec now ok).2 = none) := by
  refine ⟨?_, ?_, ?_⟩
  · intro hjs r hact
    unfold monitorTick at hact
    split_ifs at hact with h1 h2 h3 h4 h5 h6 h7 h8 <;>
      simp_all only [Bool.not_eq_true, Option.some.injEq, reduceCtorEq]
    · -- actuation branch with changeSucceeds
      have htr : truthyN rec = true := by
        revert h1; cases truthyN rec <;> simp
      have hrec : rec = some r := by
        rw [← hact]; exact truthyN_eq_some rec htr
      have hne : rec ≠ s.currentChannel := by simpa [bne_iff_ne] using h6
      refine ⟨hrec, ?_, by omega, ?_, ?_⟩
      · have heq : rec = s.recommendedChannel := by simpa using h4
        rw [← heq, hrec]
      · intro htruthy
        simp only [htruthy, Bool.true_and, decide_eq_false_iff_not, not_lt] at h7
        omega
      · rw [← hrec]; exact fun hcur => hne hcur.symm
    · -- actuation branch without changeSucceeds
      have htr : truthyN rec = true := by
        revert h1; cases truthyN rec <;> simp
      have hrec : rec = some r := by
        rw [← hact]; exact truthyN_eq_some rec htr
      have hne : rec ≠ s.currentChannel := by simpa [bne_iff_ne] using h6
      refine ⟨hrec, ?_, by omega, ?_, ?_⟩
      · have heq : rec = s.recommendedChannel := by simpa using h4
        rw [← heq, hrec]
      · intro htruthy
        simp only [htruthy, Bool.true_and, decide_eq_false_iff_not, not_lt] at h7
        omega
      · rw [← hrec]; exact fun hcur => hne hcur.symm
  · intro hjs htr
    have hrec := truthyN_eq_some rec htr
    cases ok <;> simp [monitorTick, hjs, htr, ← hrec]
  · intro hjs htr hne
    have hb : (rec != s.recommendedChannel) = true := by simp [bne_iff_ne, hne]
    simp [monitorTick, hjs, htr, hb]

/-- Witness for C2 at a concrete stable state: channel 5 recommended since
time 0, tick at 30000ms, no prior change, currently on channel 3. -/
theorem claim2_hysteresis_guards_witness :
    monStable5.monitoringJustStarted = false ∧
    (monitorTick monStable5 (some 5) 30000 true).2 = some 5 ∧
    ((some 5 : Option Nat) = some 5 ∧ monStable5.recommendedChannel = some 5 ∧
      CHANNEL_STABILITY_MS ≤ 30000 - monStable5.recommendedChannelTime.getD 0 ∧
      (truthyI monStable5.lastChannelChangeTime = true →
        CHANNEL_CHANGE_COOLDOWN_MS ≤
          30000 - monStable5.lastChannelChangeTime.getD 0) ∧
      monStable5.currentChannel ≠ some 5) :=
  ⟨rfl, by decide,
   (claim2_hysteresis_guards monStable5 (some 5) 30000 true).1 rfl 5 (by decide)⟩

/-- C7 (amended): each readiness probe stores exactly the new resolver in the
single `readinessResolverRef` slot (overwriting any pending one) without
resolving anything; a probe whose resolver is still the stored one resolves on
a matching `channelChangeReadiness` message with the message's values, or on
its own 2-second fallback timer with the optimistic `(ready, authenticated) =
(true, false)`; a fallback timer whose resolver has been replaced does
nothing.  The code does not prevent a new probe from being issued while one is
pending: a second `changeChannel` call before the in-flight flag is set
overwrites the resolver, and the overwritten probe then never resolves. -/
theorem claim7_readiness_probe_amended (s : BridgeState) (rid : Nat)
    (r a : Bool) (n : Nat) :
    (s.webViewAvailable = true → s.changingChannel = false →
      (bridgeStep s (.call n)).readinessResolver = some s.nextResolverId ∧
      (bridgeStep s (.call n)).resolvedLog = s.resolvedLog) ∧
    (s.readinessResolver = some rid →
      (bridgeStep s (.readinessMessage r a)).resolvedLog
          = s.resolvedLog ++ [(rid, r, a)] ∧
      (bridgeStep s (.readinessMessage r a)).readinessResolver = none) ∧
    (s.readinessResolver = some rid →
      (bridgeStep s (.readinessTimeout rid)).resolvedLog
          = s.resolvedLog ++ [(rid, true, false)] ∧
      (bridgeStep s (.readinessTimeout rid)).readinessResolver = none) ∧
    (s.readinessResolver ≠ some rid →
      bridgeStep s (.readinessTimeout rid) = s) := by
  refine ⟨?_, ?_, ?_, ?_⟩
  · intro hw hc
    simp [bridgeStep, changeChannelEntry, hw, hc]
  · intro hres
    unfold bridgeStep changeChannelContinuation
    rw [hres]
    cases r <;> cases a <;> simp
  · intro hres
    unfold bridgeStep changeChannelContinuation
    rw [hres]
    simp
  · intro hres
    unfold bridgeStep
    simp [hres]

/-- Witness for C7 (amended) at the concrete pending-probe state. -/
theorem claim7_readiness_probe_amended_witness :
    bridgeProbePending.readinessResolver = some 0 ∧
    ((bridgeStep bridgeProbePending (.readinessMessage true true)).resolvedLog
        = bridgeProbePending.resolvedLog ++ [(0, true, true)] ∧
      (bridgeStep bridgeProbePending
          (.readinessMessage true true)).readinessResolver = none) :=
  ⟨rfl,
   (claim7_readiness_probe_amended bridgeProbePending 0 true true 516).2.1 rfl⟩

/-- Counterexample to C7 as stated: starting from a fresh bridge, a first
`changeChannel` call leaves probe 0 pending and unresolved, yet a second call
immediately issues a new probe (the resolver slot now holds probe 1) — so a
new probe is issued before the pending one has resolved or timed out — and in
the completed trace (probe 0's own 2-second timer fires, then a readiness
message arrives) probe 0 never resolves at all: only probe 1 appears in the
resolution log. -/
theorem claim7_readiness_probe_counterexample :
    (bridgeRun bridgeInit [.call 516]).readinessResolver = some 0 ∧
    (bridgeRun bridgeInit [.call 516]).resolvedLog = [] ∧
    (bridgeRun bridgeInit [.call 516, .call 516]).readinessResolver = some 1 ∧
    (bridgeRun bridgeInit
        [.call 516, .call 516, .readinessTimeout 0,
         .readinessMessage true false]).resolvedLog
      = [(1, true, false)] := by
  decide

/-! ## Claim theorems: recommendation engine -/

/-- `selectTop` over a mapped non-empty list returns the image of the first
element attaining the maximal score: the list splits as `l ++ w :: r` with
every element scoring at most `w` and every element before `w` scoring
strictly less. -/
theorem selectTop_map_spec (f : Candidate → Candidate × Int) :
    ∀ (c : Candidate) (cs : List Candidate),
      ∃ l w r, c :: cs = l ++ w :: r ∧
        selectTop ((c :: cs).map f) = some (f w) ∧
        (∀ x ∈ c :: cs, (f x).2 ≤ (f w).2) ∧
        (∀ x ∈ l, (f x).2 < (f w).2) := by
  intro c cs
  induction cs generalizing c with
  | nil =>
    refine ⟨[], c, [], rfl, by simp [selectTop], ?_, by simp⟩
    intro x hx
    rcases List.mem_singleton.mp hx with rfl
    exact le_refl _
  | cons c1 cs1 ih =>
    obtain ⟨l, w, r, hdec, hsel, hmax, hlt⟩ := ih c1
    by_cases hgt : (f w).2 > (f c).2
    · refine ⟨c :: l, w, r, ?_, ?_, ?_, ?_⟩
      · rw [List.cons_append, ← hdec]
      · simp only [List.map_cons] at hsel ⊢
        rw [selectTop, hsel]
        simp [hgt]
      · intro x hx
        rcases List.mem_cons.mp hx with rfl | hx
        · exact le_of_lt hgt
        · exact hmax x hx
      · intro x hx
        rcases List.mem_cons.mp hx with rfl | hx
        · exact hgt
        · exact hlt x hx
    · refine ⟨[], c, c1 :: cs1, rfl, ?_, ?_, by simp⟩
      · simp only [List.map_cons] at hsel ⊢
        rw [selectTop, hsel]
        simp [hgt]
      · intro x hx
        rcases List.mem_cons.mp hx with rfl | hx
        · exact le_refl _
        · exact le_trans (hmax x hx) (by omega)

/-- C1: for a non-empty candidate list, each combined score is the excitement
score plus the `(10 - priority) * 10` bonus exactly when the excitement range
is below 30; the selected channel belongs to the candidate with the highest
combined score, earlier candidates winning ties; and on the example pair
A(excitement 50, priority 1, channel 10), B(excitement 55, priority 2,
channel 20) the combined scores are 140 and 135 and both the
scoring/selection step and the whole engine return channel 10. -/
theorem claim1_scoring_and_selection (c0 : Candidate) (rest : List Candidate) :
    (∀ c : Candidate, combinedScore (c0 :: rest) c
        = if maxExcitement (c0 :: rest) - minExcitement (c0 :: rest) <
              EXCITEMENT_TIEBREAKER_THRESHOLD
          then c.excitement_score + (10 - c.priority) * 10
          else c.excitement_score) ∧
    (∃ l w r, c0 :: rest = l ++ w :: r ∧
      scoreAndSelect (c0 :: rest) = some w.channel ∧
      (∀ x ∈ c0 :: rest,
        combinedScore (c0 :: rest) x ≤ combinedScore (c0 :: rest) w) ∧
      (∀ x ∈ l, combinedScore (c0 :: rest) x < combinedScore (c0 :: rest) w)) ∧
    (combinedScore [candA, candB] candA = 140 ∧
      combinedScore [candA, candB] candB = 135 ∧
      scoreAndSelect [candA, candB] = some 10 ∧
      calculateRecommendedChannel [gameA, gameB] mappingsAB noPrevState 0
        = some 10) := by
  refine ⟨?_, ?_, by decide, by decide, by decide, by decide⟩
  · intro c
    unfold combinedScore priorityBonus
    by_cases hb : maxExcitement (c0 :: rest) - minExcitement (c0 :: rest) <
        EXCITEMENT_TIEBREAKER_THRESHOLD
    · simp [hb]
    · simp [hb]
  · obtain ⟨l, w, r, hdec, hsel, hmax, hlt⟩ :=
      selectTop_map_spec (fun c => (c, combinedScore (c0 :: rest) c)) c0 rest
    refine ⟨l, w, r, hdec, ?_, hmax, hlt⟩
    unfold scoreAndSelect
    rw [hsel]
    rfl

/-- The candidate-building loop is the filter the claim describes: over the
mapped live started games, exactly those are kept for which the drop condition
(no new play and a timeout/score-changed flag, or fourth down with the play
stuck and no new play) fails. -/
theorem buildCandidates_eq_filterMap (games : List Game)
    (gm : List (Nat × Mapping)) (prev : Nat → Option PrevGameState) (now : Int) :
    buildCandidates games gm prev now
      = games.filterMap (fun g =>
          match eligMapping gm g with
          | none => none
          | some m =>
            if (!hasNewPlayB (prev g.event_id) g &&
                  (g.is_timeout || g.score_just_changed)) ||
                (isFourthDown g && isPlayStuck (prev g.event_id) now &&
                  !hasNewPlayB (prev g.event_id) g)
            then none
            else some ⟨g.event_id, m.channel, m.priority,
              g.game_excitement_score⟩) := by
  induction games with
  | nil => rfl
  | cons g gs ih =>
    rw [List.filterMap_cons]
    have h0 : buildCandidates (g :: gs) gm prev now
        = (match gm.lookup g.event_id with
           | none => buildCandidates gs gm prev now
           | some m =>
             if !g.is_live then buildCandidates gs gm prev now
             else if !gameHasStarted g then buildCandidates gs gm prev now
             else if isCommercial (prev g.event_id) g now then
               buildCandidates gs gm prev now
             else ⟨g.event_id, m.channel, m.priority, g.game_excitement_score⟩ ::
               buildCandidates gs gm prev now) := rfl
    cases hl : gm.lookup g.event_id with
    | none =>
      have he : eligMapping gm g = none := by
        unfold eligMapping; rw [hl]
      rw [h0, hl, he, ih]
    | some m =>
      have he : eligMapping gm g
          = if g.is_live && gameHasStarted g then some m else none := by
        unfold eligMapping; rw [hl]
      rw [h0, hl, he]
      have hcond : ((!hasNewPlayB (prev g.event_id) g &&
            (g.is_timeout || g.score_just_changed)) ||
          (isFourthDown g && isPlayStuck (prev g.event_id) now &&
            !hasNewPlayB (prev g.event_id) g))
          = isCommercial (prev g.event_id) g now := rfl
      rw [hcond]
      cases hlive : g.is_live with
      | false => simp [ih]
      | true =>
        cases hstart : gameHasStarted g with
        | false => simp [ih]
        | true =>
          cases hcomm : isCommercial (prev g.event_id) g now with
          | false => simp [hcomm, ih]
          | true => simp [hcomm, ih]

/-- The fallback step, expressed through eligibility: ineligible games leave
the running best untouched; an eligible game replaces it when its priority
value is strictly lower (or the best is still unset). -/
theorem fallbackStep_elig (gm : List (Nat × Mapping)) (best : Option (Int × Nat))
    (g : Game) :
    fallbackStep gm best g
      = (match eligMapping gm g with
         | none => best
         | some m =>
           match best with
           | none => some (m.priority, m.channel)
           | some b =>
             if m.priority < b.1 then some (m.priority, m.channel) else best) := by
  unfold fallbackStep eligMapping
  cases gm.lookup g.event_id with
  | none => rfl
  | some m =>
    cases hlive : g.is_live with
    | false => cases best <;> simp
    | true =>
      cases hstart : gameHasStarted g with
      | false => cases best <;> simp [hstart]
      | true => cases best <;> simp [hstart]

/-- Full characterisation of the fallback loop: it returns `none` exactly when
the incoming best is unset and no game is eligible; and a `some (p, ch)` result
either is the incoming best or comes from an eligible game, its priority value
`p` is a lower bound of all eligible priorities in the list and of the incoming
best. -/
theorem fallbackLoop_spec (gm : List (Nat × Mapping)) :
    ∀ (gs : List Game) (best : Option (Int × Nat)),
      (fallbackLoop gm gs best = none ↔
        best = none ∧ ∀ g ∈ gs, eligMapping gm g = none) ∧
      (∀ p ch, fallbackLoop gm gs best = some (p, ch) →
        (best = some (p, ch) ∨
          ∃ g ∈ gs, ∃ m, eligMapping gm g = some m ∧
            m.priority = p ∧ m.channel = ch) ∧
        (∀ g ∈ gs, ∀ m, eligMapping gm g = some m → p ≤ m.priority) ∧
        (∀ b, best = some b → p ≤ b.1)) := by
  intro gs
  induction gs with
  | nil =>
    intro best
    constructor
    · simp [fallbackLoop]
    · intro p ch h
      have hb : best = some (p, ch) := h
      refine ⟨Or.inl hb, by simp, ?_⟩
      intro b hb'
      rw [hb'] at hb
      injection hb with hb
      rw [hb]
  | cons g gs ih =>
    intro best
    have hrw : fallbackLoop gm (g :: gs) best
        = fallbackLoop gm gs (fallbackStep gm best g) := rfl
    cases helig : eligMapping gm g with
    | none =>
      have hsame : fallbackStep gm best g = best := by
        rw [fallbackStep_elig, helig]
      obtain ⟨ihnone, ihsome⟩ := ih best
      constructor
      · rw [hrw, hsame, ihnone]
        simp [List.forall_mem_cons, helig]
      · intro p ch h
        rw [hrw, hsame] at h
        obtain ⟨horig, hmin, hbest⟩ := ihsome p ch h
        refine ⟨?_, ?_, hbest⟩
        · rcases horig with h' | ⟨g', hg', m', hm', hp', hc'⟩
          · exact Or.inl h'
          · exact Or.inr ⟨g', List.mem_cons_of_mem _ hg', m', hm', hp', hc'⟩
        · intro g' hg' m' hm'
          rcases List.mem_cons.mp hg' with rfl | hg'
          · rw [helig] at hm'; cases hm'
          · exact hmin g' hg' m' hm'
    | some m =>
      cases best with
      | none =>
        have hsame : fallbackStep gm none g = some (m.priority, m.channel) := by
          rw [fallbackStep_elig, helig]
        obtain ⟨ihnone, ihsome⟩ := ih (some (m.priority, m.channel))
        constructor
        · rw [hrw, hsame, ihnone]
          simp [List.forall_mem_cons, helig]
        · intro p ch h
          rw [hrw, hsame] at h
          obtain ⟨horig, hmin, hbest⟩ := ihsome p ch h
          have hple : p ≤ m.priority := hbest (m.priority, m.channel) rfl
          refine ⟨?_, ?_, ?_⟩
          · rcases horig with h' | ⟨g', hg', m', hm', hp', hc'⟩
            · injection h' with h''
              exact Or.inr ⟨g, List.mem_cons_self g gs, m, helig,
                congrArg Prod.fst h'', congrArg Prod.snd h''⟩
            · exact Or.inr ⟨g', List.mem_cons_of_mem _ hg', m', hm', hp', hc'⟩
          · intro g' hg' m' hm'
            rcases List.mem_cons.mp hg' with rfl | hg'
            · rw [helig] at hm'
              injection hm' with e
              rw [← e]
              exact hple
            · exact hmin g' hg' m' hm'
          · intro b hb
            cases hb
      | some b =>
        by_cases hlt : m.priority < b.1
        · have hsame : fallbackStep gm (some b) g
              = some (m.priority, m.channel) := by
            rw [fallbackStep_elig, helig]
            simp [hlt]
          obtain ⟨ihnone, ihsome⟩ := ih (some (m.priority, m.channel))
          constructor
          · rw [hrw, hsame, ihnone]
            simp
          · intro p ch h
            rw [hrw, hsame] at h
            obtain ⟨horig, hmin, hbest⟩ := ihsome p ch h
            have hple : p ≤ m.priority := hbest (m.priority, m.channel) rfl
            refine ⟨?_, ?_, ?_⟩
            · rcases horig with h' | ⟨g', hg', m', hm', hp', hc'⟩
              · injection h' with h''
                exact Or.inr ⟨g, List.mem_cons_self g gs, m, helig,
                  congrArg Prod.fst h'', congrArg Prod.snd h''⟩
              · exact Or.inr ⟨g', List.mem_cons_of_mem _ hg', m', hm', hp', hc'⟩
            · intro g' hg' m' hm'
              rcases List.mem_cons.mp hg' with rfl | hg'
              · rw [helig] at hm'
                injection hm' with e
                rw [← e]
                exact hple
              · exact hmin g' hg' m' hm'
            · intro b' hb'
              injection hb' with hb'
              rw [← hb']
              omega
        · have hsame : fallbackStep gm (some b) g = some b := by
            rw [fallbackStep_elig, helig]
            simp [hlt]
          obtain ⟨ihnone, ihsome⟩ := ih (some b)
          constructor
          · rw [hrw, hsame, ihnone]
            simp
          · intro p ch h
            rw [hrw, hsame] at h
            obtain ⟨horig, hmin, hbest⟩ := ihsome p ch h
            have hpb : p ≤ b.1 := hbest b rfl
            refine ⟨?_, ?_, ?_⟩
            · rcases horig with h' | ⟨g', hg', m', hm', hp', hc'⟩
              · exact Or.inl h'
              · exact Or.inr ⟨g', List.mem_cons_of_mem _ hg', m', hm', hp', hc'⟩
            · intro g' hg' m' hm'
              rcases List.mem_cons.mp hg' with rfl | hg'
              · rw [helig] at hm'
                injection hm' with e
                rw [← e]
                omega
              · exact hmin g' hg' m' hm'
            · intro b' hb'
              injection hb' with hb'
              rw [← hb']
              exact hpb

/-- C3: a live, mapped, started snapshot is dropped from the candidate set
exactly when (no new play detected and its timeout or score-just-changed flag
is set) or (down equals 4, no play update observed for more than 60 seconds,
and no new play detected); and whenever no candidate survives, the engine
returns the channel of a live/started/mapped snapshot of minimal priority
value, or none when no such snapshot exists. -/
theorem claim3_activity_filter_and_fallback (games : List Game)
    (gm : List (Nat × Mapping)) (prev : Nat → Option PrevGameState) (now : Int) :
    (buildCandidates games gm prev now
        = games.filterMap (fun g =>
            match eligMapping gm g with
            | none => none
            | some m =>
              if (!hasNewPlayB (prev g.event_id) g &&
                    (g.is_timeout || g.score_just_changed)) ||
                  (isFourthDown g && isPlayStuck (prev g.event_id) now &&
                    !hasNewPlayB (prev g.event_id) g)
              then none
              else some ⟨g.event_id, m.channel, m.priority,
                g.game_excitement_score⟩)) ∧
    (buildCandidates games gm prev now = [] →
      (calculateRecommendedChannel games gm prev now = none ↔
        ∀ g ∈ games, eligMapping gm g = none) ∧
      (∀ ch, calculateRecommendedChannel games gm prev now = some ch →
        ∃ g ∈ games, ∃ m, eligMapping gm g = some m ∧ m.channel = ch ∧
          ∀ g' ∈ games, ∀ m', eligMapping gm g' = some m' →
            m.priority ≤ m'.priority)) := by
  refine ⟨buildCandidates_eq_filterMap games gm prev now, ?_⟩
  intro hempty
  by_cases hgm : gm = []
  · have hcalc : calculateRecommendedChannel games gm prev now = none := by
      unfold calculateRecommendedChannel
      rw [if_pos hgm]
    constructor
    · rw [hcalc]
      simp only [true_iff]
      intro g hg
      unfold eligMapping
      rw [hgm]
      rfl
    · intro ch hch
      rw [hcalc] at hch
      cases hch
  · have hcalc : calculateRecommendedChannel games gm prev now
        = fallbackChannel games gm := by
      unfold calculateRecommendedChannel
      rw [if_neg hgm, hempty]
    obtain ⟨hnone, hsome⟩ := fallbackLoop_spec gm games none
    constructor
    · rw [hcalc]
      unfold fallbackChannel
      rw [Option.map_eq_none']
      rw [hnone]
      simp
    · intro ch hch
      rw [hcalc] at hch
      unfold fallbackChannel at hch
      rcases Option.map_eq_some'.mp hch with ⟨b, hb, hbch⟩
      obtain ⟨horig, hmin, -⟩ := hsome b.1 b.2 (by rw [hb])
      rcases horig with h' | ⟨g', hg', m', hm', hp', hc'⟩
      · cases h'
      · refine ⟨g', hg', m', hm', ?_, ?_⟩
        · rw [hc', hbch]
        · intro g'' hg'' m'' hm''
          have := hmin g'' hg'' m'' hm''
          omega

/-- Witness for C3: a single mapped live started game on a timeout break with
no new play is dropped (empty candidate set), and the engine falls back. -/
theorem claim3_activity_filter_and_fallback_witness :
    buildCandidates [gameTimeoutBreak] mappingsFallback noPrevState 0 = [] ∧
    (calculateRecommendedChannel [gameTimeoutBreak] mappingsFallback noPrevState 0
        = none ↔
      ∀ g ∈ [gameTimeoutBreak], eligMapping mappingsFallback g = none) :=
  ⟨by decide,
   ((claim3_activity_filter_and_fallback [gameTimeoutBreak] mappingsFallback
      noPrevState 0).2 (by decide)).1⟩
